import Mathlib

/-!
Verification development for the GoFlow2Influxdb connector (src/src/main.rs).

The Rust program reads JSON-encoded flow records line by line, filters them by
a private-IPv4 scope predicate, transforms each accepted record into an
InfluxDB data point, accumulates points into a bounded batch, and flushes each
full batch to the sink through a bounded fixed-delay retry loop, pacing between
flushes.  At end of stream a non-empty partial batch is flushed once more and a
final summary (total parsed, total filtered) is reported.

The shallow embedding below mirrors the source function by function:

  - FlowData                  models struct FlowData (main.rs:12-61)
  - Config / Config.fromEnv   models Config::from_env (main.rs:76-99); the
                              process environment is a lookup function, and
                              rustParseUInt models str::parse for Rust's
                              unsigned integer types over the string's chars
  - is_private_ip             models is_private_ip (main.rs:101-113), with
                              parseIpv4 modelling Rust's Ipv4Addr::from_str
                              and Ipv4Net.contains modelling ipnet's
                              prefix-containment test
  - flow_to_datapoint         models flow_to_datapoint (main.rs:140-162);
                              u64_as_i64 models the Rust cast `as i64`
  - write_batch_with_retry    models write_batch_with_retry (main.rs:115-138).
                              The sink is a function giving the outcome of each
                              write attempt; the result is a RetryTrace holding
                              the argument of every sink call issued, the
                              sleeps performed, and the returned value, where
                              result = none models falling through the
                              `for attempt in 1..=retry_attempts` loop into the
                              trailing unreachable!() (a process abort)
  - processLine / runLines /
    finishRun / runPipeline   model the ingestion loop in main (main.rs:194-258).
                              Observable effects (parse-failure warnings, the
                              evaluation of the flush condition, flushes,
                              pacing sleeps, the final flush) are recorded as
                              an Event trace; the periodic progress log line
                              (main.rs:228-235) is pure observability and has
                              no state effect, so it is not recorded.
                              serde_json::from_str is an external crate and is
                              passed in abstractly as a parse function
                              String -> Option FlowData; theorems about the
                              loop quantify over it.
                              A returned value of none models a panic (the
                              only reachable panic being the dispatcher's
                              unreachable!()); some st models normal
                              termination, after which main logs the final
                              summary (st.total_processed, st.filtered_out)
                              and returns Ok(()).
-/

/-- Model of struct FlowData (main.rs:12-61).  Rust's u64/u32/u16/u8 fields are
carried as Nat; where a numeric truncation happens in the code (the `as i64`
casts in flow_to_datapoint) it is modelled explicitly by u64_as_i64. -/
structure FlowData where
  flow_type : String
  time_received_ns : Nat
  sequence_num : Nat
  sampling_rate : Nat
  sampler_address : String
  time_flow_start_ns : Nat
  time_flow_end_ns : Nat
  bytes : Nat
  packets : Nat
  src_addr : String
  dst_addr : String
  etype : String
  proto : String
  src_port : Nat
  dst_port : Nat
  in_if : Nat
  out_if : Nat
  src_mac : Option String
  dst_mac : Option String
  src_vlan : Option Nat
  dst_vlan : Option Nat
  vlan_id : Option Nat
  ip_tos : Option Nat
  forwarding_status : Option Nat
  ip_ttl : Option Nat
  ip_flags : Option Nat
  tcp_flags : Option Nat
  icmp_type : Option Nat
  icmp_code : Option Nat
  ipv6_flow_label : Option Nat
  fragment_id : Option Nat
  fragment_offset : Option Nat
  src_as : Option Nat
  dst_as : Option Nat
  next_hop : Option String
  next_hop_as : Option Nat
  src_net : Option String
  dst_net : Option String
  bgp_next_hop : Option String
  bgp_communities : Option (List String)
  as_path : Option (List Nat)
  mpls_ttl : Option (List Nat)
  mpls_label : Option (List Nat)
  mpls_ip : Option (List String)
  observation_domain_id : Option Nat
  observation_point_id : Option Nat

/-- Model of struct Config (main.rs:63-74). -/
structure Config where
  influxdb_url : String
  influxdb_token : String
  influxdb_org : String
  influxdb_bucket : String
  goflow2_input_file : String
  batch_size : Nat
  flush_interval_seconds : Nat
  retry_attempts : Nat
  retry_delay_ms : Nat

/-- Model of Rust's str::parse for an unsigned integer type whose values are
the naturals below `bound` (usize/u64: bound = 2^64, u32: bound = 2^32).
Rust accepts an optional leading plus sign followed by one or more ASCII
digits, and fails on overflow; any other character (including a minus sign,
whitespace, or an empty string) is a parse error. -/
def rustParseUInt (bound : Nat) (s : String) : Option Nat :=
  match s.data with
  | [] => none
  | c :: rest =>
    let digits := if c = '+' then rest else c :: rest
    if digits.isEmpty then none
    else if digits.all Char.isDigit then
      let n := digits.foldl (fun acc ch => acc * 10 + (ch.toNat - 48)) 0
      if n < bound then some n else none
    else none

/-- Model of Config::from_env (main.rs:76-99).  The environment is a lookup
function returning the value of a variable when it is set; env::var's error
case is modelled as none, and the anyhow Result of from_env as an Option.
The four INFLUXDB_* variables are required; GOFLOW2_INPUT_FILE defaults to
"/dev/stdin"; the four numeric variables default to "100", "10", "3", "1000"
and are then parsed with str::parse (batch_size: usize, flush_interval_seconds
and retry_delay_ms: u64, retry_attempts: u32), whose failure aborts from_env. -/
def Config.fromEnv (env : String → Option String) : Option Config := do
  let url ← env "INFLUXDB_URL"
  let token ← env "INFLUXDB_TOKEN"
  let org ← env "INFLUXDB_ORG"
  let bucket ← env "INFLUXDB_BUCKET"
  let inputFile := (env "GOFLOW2_INPUT_FILE").getD "/dev/stdin"
  let bs ← rustParseUInt (2 ^ 64) ((env "BATCH_SIZE").getD "100")
  let fis ← rustParseUInt (2 ^ 64) ((env "FLUSH_INTERVAL_SECONDS").getD "10")
  let ra ← rustParseUInt (2 ^ 32) ((env "RETRY_ATTEMPTS").getD "3")
  let rd ← rustParseUInt (2 ^ 64) ((env "RETRY_DELAY_MS").getD "1000")
  some ⟨url, token, org, bucket, inputFile, bs, fis, ra, rd⟩

/-- Models line.trim().is_empty() (main.rs:195): a line is blank exactly when
every one of its characters is whitespace. -/
def isBlank (cs : List Char) : Bool :=
  cs.all Char.isWhitespace

/-- Splits a character list at every '.' separator, keeping empty groups, the
way Rust's IPv4 parser consumes dot-separated octet fields. -/
def parseOctets : List Char → List (List Char)
  | [] => [[]]
  | '.' :: rest => [] :: parseOctets rest
  | c :: rest =>
    match parseOctets rest with
    | g :: gs => (c :: g) :: gs
    | [] => [[c]]

/-- Value of one dotted-quad octet field under Rust's Ipv4Addr grammar:
one to three ASCII digits, no leading zero in a multi-digit field, value at
most 255. -/
def octetVal (cs : List Char) : Option Nat :=
  if cs.isEmpty then none
  else if 3 < cs.length then none
  else if cs.all Char.isDigit then
    if 1 < cs.length ∧ cs.head? = some '0' then none
    else if cs.foldl (fun acc ch => acc * 10 + (ch.toNat - 48)) 0 ≤ 255 then
      some (cs.foldl (fun acc ch => acc * 10 + (ch.toNat - 48)) 0)
    else none
  else none

/-- Model of Rust's Ipv4Addr::from_str: exactly four dot-separated octet
fields, each valid per octetVal. -/
def parseIpv4 (s : String) : Option (Nat × Nat × Nat × Nat) :=
  match parseOctets s.data with
  | [oa, ob, oc, od] =>
    match octetVal oa, octetVal ob, octetVal oc, octetVal od with
    | some a, some b, some c, some d => some (a, b, c, d)
    | _, _, _, _ => none
  | _ => none

/-- The 32-bit value of an IPv4 address given as four octets. -/
def ipv4ToNat (a b c d : Nat) : Nat :=
  ((a * 256 + b) * 256 + c) * 256 + d

/-- Model of ipnet's Ipv4Net: a network address with a prefix length. -/
structure Ipv4Net where
  addr : Nat
  prefixLen : Nat

/-- Model of Ipv4Net::contains: an address is in the network when it has the
same leading prefixLen bits as the network address. -/
def Ipv4Net.contains (net : Ipv4Net) (ip : Nat) : Bool :=
  ip / 2 ^ (32 - net.prefixLen) == net.addr / 2 ^ (32 - net.prefixLen)

/-- The three private-use ranges built in is_private_ip (main.rs:103-107):
10.0.0.0/8, 172.16.0.0/12, 192.168.0.0/16. -/
def private_ranges : List Ipv4Net :=
  [⟨ipv4ToNat 10 0 0 0, 8⟩, ⟨ipv4ToNat 172 16 0 0, 12⟩, ⟨ipv4ToNat 192 168 0 0, 16⟩]

/-- Model of is_private_ip (main.rs:101-113): parse the string as an IPv4
address; on success test membership in any of the three private ranges; any
parse failure yields false. -/
def is_private_ip (ip_str : String) : Bool :=
  match parseIpv4 ip_str with
  | some (a, b, c, d) => private_ranges.any (fun range => range.contains (ipv4ToNat a b c d))
  | none => false

/-- Model of the Rust cast `as i64` applied to a u64 value: values below 2^63
are unchanged, larger values wrap around into the negatives. -/
def u64_as_i64 (n : Nat) : Int :=
  if n < 2 ^ 63 then (n : Int) else (n : Int) - 2 ^ 64

/-- Model of influxdb2's DataPoint as built in flow_to_datapoint: a measurement
name, tag pairs and field pairs in insertion order, and a timestamp. -/
structure DataPoint where
  measurement : String
  tags : List (String × String)
  fields : List (String × Int)
  timestamp : Int

/-- Model of flow_to_datapoint (main.rs:140-162).  The timestamp is
flow.time_received_ns cast with `as i64`; tags and fields are listed in the
builder's call order; the build step never fails for this fixed shape (a
non-empty measurement name and at least one field), so the function is total. -/
def flow_to_datapoint (flow : FlowData) : DataPoint :=
  { measurement := "netflow"
    tags := [("flow_type", flow.flow_type),
             ("src_addr", flow.src_addr),
             ("dst_addr", flow.dst_addr),
             ("proto", flow.proto),
             ("sampler_address", flow.sampler_address)]
    fields := [("bytes", u64_as_i64 flow.bytes),
               ("packets", u64_as_i64 flow.packets),
               ("src_port", (flow.src_port : Int)),
               ("dst_port", (flow.dst_port : Int)),
               ("sequence_num", (flow.sequence_num : Int)),
               ("sampling_rate", (flow.sampling_rate : Int)),
               ("time_flow_start_ns", u64_as_i64 flow.time_flow_start_ns),
               ("time_flow_end_ns", u64_as_i64 flow.time_flow_end_ns),
               ("in_if", (flow.in_if : Int)),
               ("out_if", (flow.out_if : Int))]
    timestamp := u64_as_i64 flow.time_received_ns }

/-- The data interpolated into the error built on retry exhaustion
(main.rs:130): the configured attempt count and the display of the last
underlying sink error. -/
structure DispatchError where
  attempts : Nat
  lastErr : String

/-- The message the anyhow error of main.rs:130 renders to. -/
def DispatchError.message (e : DispatchError) : String :=
  "Failed to write batch after " ++ toString e.attempts ++ " attempts: " ++ e.lastErr

/-- Observable behaviour of one call to write_batch_with_retry: the argument
of every sink write call issued (in order), the sleeps performed between
attempts (in order, in milliseconds), and the outcome.  result = none means
the `for` loop finished without returning and control reached the trailing
unreachable!(), i.e. the process panics. -/
structure RetryTrace where
  calls : List (List DataPoint)
  sleeps : List Nat
  result : Option (Except DispatchError Unit)

/-- Body of the `for attempt in 1..=retry_attempts` loop of
write_batch_with_retry (main.rs:122-136), iterating over the remaining attempt
numbers.  `write attempt` is the outcome of the sink write call made on that
attempt (each call receives the full batch: the code clones the batch for
every attempt).  On Ok the function returns Ok(()); on Err at the final
attempt it returns the exhaustion error; otherwise it sleeps retry_delay_ms
and continues. -/
def retryGo (write : Nat → Except String Unit) (batch : List DataPoint)
    (retry_attempts retry_delay_ms : Nat) : List Nat → RetryTrace
  | [] => ⟨[], [], none⟩
  | attempt :: rest =>
    match write attempt with
    | Except.ok _ => ⟨[batch], [], some (Except.ok ())⟩
    | Except.error e =>
      if attempt = retry_attempts then
        ⟨[batch], [], some (Except.error ⟨retry_attempts, e⟩)⟩
      else
        let t := retryGo write batch retry_attempts retry_delay_ms rest
        ⟨batch :: t.calls, retry_delay_ms :: t.sleeps, t.result⟩

/-- Model of write_batch_with_retry (main.rs:115-138): run the loop body over
the attempt numbers 1, 2, ..., retry_attempts. -/
def write_batch_with_retry (write : Nat → Except String Unit) (batch : List DataPoint)
    (retry_attempts retry_delay_ms : Nat) : RetryTrace :=
  retryGo write batch retry_attempts retry_delay_ms (List.range' 1 retry_attempts)

/-- Observable events of the ingestion loop, in program order.  flushCheck
records each evaluation of the flush condition `batch.len() >= batch_size`
(main.rs:211) together with the batch length and configured capacity at that
instant; flush records a full-batch dispatch (main.rs:214-222); pace records
the sleep after a flush (main.rs:225); finalFlush records the end-of-stream
dispatch of a non-empty partial batch (main.rs:243-253); parseFailure records
the warning logged for a line that fails to parse (main.rs:238). -/
inductive Event where
  | parseFailure (line : String)
  | flushCheck (len : Nat) (size : Nat)
  | flush (tr : RetryTrace)
  | pace (ms : Nat)
  | finalFlush (tr : RetryTrace)

/-- State of the ingestion loop in main (main.rs:188-190): the current batch
and the two counters, plus instrumentation: linesRead counts loop iterations
(one per input line consumed), writeCalls counts sink write calls issued so
far (used to index the sink's per-call outcomes), and events is the trace of
observable effects. -/
structure LoopSt where
  batch : List DataPoint
  total_processed : Nat
  filtered_out : Nat
  linesRead : Nat
  writeCalls : Nat
  events : List Event

/-- The loop state before the first line: empty batch, zero counters
(main.rs:188-190). -/
def initState : LoopSt :=
  ⟨[], 0, 0, 0, 0, []⟩

/-- One iteration of the while-let loop of main (main.rs:194-241) on the line
just read.  parse stands for serde_json::from_str::<FlowData>; sink gives the
outcome of the k-th sink write call of the whole run (0-based).  The returned
value is none exactly when the dispatcher's trailing unreachable!() is
reached, which aborts the process. -/
def processLine (cfg : Config) (parse : String → Option FlowData)
    (sink : Nat → Except String Unit) (st : LoopSt) (line : String) : Option LoopSt :=
  let st := { st with linesRead := st.linesRead + 1 }
  if isBlank line.data then some st
  else
    match parse line with
    | none => some { st with events := st.events ++ [Event.parseFailure line] }
    | some flow =>
      let st := { st with total_processed := st.total_processed + 1 }
      if ! is_private_ip flow.src_addr then
        some { st with filtered_out := st.filtered_out + 1 }
      else
        let batch := st.batch ++ [flow_to_datapoint flow]
        let st := { st with
          batch := batch
          events := st.events ++ [Event.flushCheck batch.length cfg.batch_size] }
        if cfg.batch_size ≤ batch.length then
          let tr := write_batch_with_retry (fun a => sink (st.writeCalls + a - 1)) batch
            cfg.retry_attempts cfg.retry_delay_ms
          match tr.result with
          | none => none
          | some _ =>
            some { st with
              batch := []
              writeCalls := st.writeCalls + tr.calls.length
              events := st.events ++
                [Event.flush tr, Event.pace (cfg.flush_interval_seconds * 1000)] }
        else some st

/-- The while-let loop of main over the whole input (main.rs:194-241),
threading the state through processLine; none propagates a panic. -/
def runLines (cfg : Config) (parse : String → Option FlowData)
    (sink : Nat → Except String Unit) : LoopSt → List String → Option LoopSt
  | st, [] => some st
  | st, line :: rest =>
    match processLine cfg parse sink st line with
    | none => none
    | some st' => runLines cfg parse sink st' rest

/-- The end-of-stream epilogue of main (main.rs:243-253): if the batch is
non-empty, dispatch it once through write_batch_with_retry (a failure is
logged, not fatal; no pacing sleep follows); then main logs the final summary
and returns Ok(()). -/
def finishRun (cfg : Config) (sink : Nat → Except String Unit) (st : LoopSt) : Option LoopSt :=
  if st.batch.isEmpty then some st
  else
    let tr := write_batch_with_retry (fun a => sink (st.writeCalls + a - 1)) st.batch
      cfg.retry_attempts cfg.retry_delay_ms
    match tr.result with
    | none => none
    | some _ =>
      some { st with
        batch := []
        writeCalls := st.writeCalls + tr.calls.length
        events := st.events ++ [Event.finalFlush tr] }

/-- The whole record-processing phase of main on a given input line sequence:
the loop followed by the end-of-stream epilogue.  some st models the process
reaching the final summary log and exiting successfully; none models a panic
during processing. -/
def runPipeline (cfg : Config) (parse : String → Option FlowData)
    (sink : Nat → Except String Unit) (input : List String) : Option LoopSt :=
  match runLines cfg parse sink initState input with
  | none => none
  | some st => finishRun cfg sink st

/-- The pair logged by the final summary line of main (main.rs:255-258):
total parsed records and records filtered out.  Nothing else is reported. -/
def summaryOf (st : LoopSt) : Nat × Nat :=
  (st.total_processed, st.filtered_out)

/-- Whether one event satisfies the batch-bound invariant: every recorded
flush-condition evaluation saw a batch no longer than the configured
capacity. -/
def checkEvent : Event → Bool
  | Event.flushCheck len size => decide (len ≤ size)
  | _ => true

/-- The batch-bound invariant over a whole event trace. -/
def checksOk (events : List Event) : Bool :=
  events.all checkEvent

/-- Number of parse-failure warnings in an event trace. -/
def parseFailures (events : List Event) : Nat :=
  events.countP (fun e => match e with | Event.parseFailure _ => true | _ => false)

/-- A concrete flow record used by witnesses: its source address 10.0.0.1 is
in 10.0.0.0/8, so the scope filter accepts it. -/
def privFlow : FlowData :=
  { flow_type := "SFLOW_5", time_received_ns := 1700000000000000000,
    sequence_num := 1, sampling_rate := 1, sampler_address := "192.168.1.1",
    time_flow_start_ns := 1700000000000000000, time_flow_end_ns := 1700000000000000001,
    bytes := 64, packets := 1, src_addr := "10.0.0.1", dst_addr := "10.0.0.2",
    etype := "IPv4", proto := "TCP", src_port := 443, dst_port := 52000,
    in_if := 1, out_if := 2, src_mac := none, dst_mac := none, src_vlan := none,
    dst_vlan := none, vlan_id := none, ip_tos := none, forwarding_status := none,
    ip_ttl := none, ip_flags := none, tcp_flags := none, icmp_type := none,
    icmp_code := none, ipv6_flow_label := none, fragment_id := none,
    fragment_offset := none, src_as := none, dst_as := none, next_hop := none,
    next_hop_as := none, src_net := none, dst_net := none, bgp_next_hop := none,
    bgp_communities := none, as_path := none, mpls_ttl := none, mpls_label := none,
    mpls_ip := none, observation_domain_id := none, observation_point_id := none }

/-- A parse function mapping every line to privFlow (serde_json would behave
this way on input lines that are the JSON encoding of privFlow). -/
def parsePriv : String → Option FlowData := fun _ => some privFlow

/-- A parse function failing on every line (serde_json would behave this way
on input lines that are not valid FlowData JSON). -/
def parseFail : String → Option FlowData := fun _ => none

/-- A sink whose every write call succeeds. -/
def sinkOk : Nat → Except String Unit := fun _ => Except.ok ()

/-- A sink whose every write call fails with the same error. -/
def sinkBoom : Nat → Except String Unit := fun _ => Except.error "boom"

/-- A configuration with the documented defaults (batch 100, pacing 10 s,
3 attempts, 1000 ms delay) and placeholder sink coordinates. -/
def cfgDefault : Config :=
  ⟨"http://localhost:8086", "token", "org", "bucket", "/dev/stdin", 100, 10, 3, 1000⟩

/-- A configuration that flushes on every record (batch capacity 1) with one
write attempt. -/
def cfgFlush1 : Config :=
  ⟨"http://localhost:8086", "token", "org", "bucket", "/dev/stdin", 1, 10, 1, 1000⟩

/-- A configuration with batch capacity 0, as Config::from_env accepts when
BATCH_SIZE is the string "0". -/
def cfgCap0 : Config :=
  ⟨"http://localhost:8086", "token", "org", "bucket", "/dev/stdin", 0, 10, 1, 1000⟩

/-- A configuration with retry_attempts 0 and batch capacity 1, as
Config::from_env accepts when RETRY_ATTEMPTS is the string "0". -/
def cfgRetry0 : Config :=
  ⟨"http://localhost:8086", "token", "org", "bucket", "/dev/stdin", 1, 10, 0, 1000⟩

/-- A configuration with retry_attempts 0 and batch capacity 2, so a single
accepted record leaves a non-empty partial batch for the final flush. -/
def cfgRetry0Cap2 : Config :=
  ⟨"http://localhost:8086", "token", "org", "bucket", "/dev/stdin", 2, 10, 0, 1000⟩

/-- A configuration with batch capacity 2 and one write attempt. -/
def cfgCap2 : Config :=
  ⟨"http://localhost:8086", "token", "org", "bucket", "/dev/stdin", 2, 10, 1, 1000⟩

/-- A two-point batch used to contrast the batch size with the attempt count
named in the exhaustion error. -/
def batchTwo : List DataPoint :=
  [flow_to_datapoint privFlow, flow_to_datapoint privFlow]

lemma retryGo_calls_replicate (write : Nat → Except String Unit) (batch : List DataPoint)
    (ra delay : Nat) (l : List Nat) :
    (retryGo write batch ra delay l).calls =
      List.replicate (retryGo write batch ra delay l).calls.length batch := by
  induction l with
  | nil => rfl
  | cons a rest ih =>
    unfold retryGo
    cases write a with
    | ok u => rfl
    | error e =>
      by_cases h : a = ra
      · simp [h]
      · simp only [if_neg h, List.length_cons, List.replicate_succ, List.cons.injEq]
        exact ⟨trivial, ih⟩

lemma retryGo_allFail (write : Nat → Except String Unit) (batch : List DataPoint)
    (delay ra : Nat) (hfail : ∀ a u, write a ≠ Except.ok u) :
    ∀ n, ∀ start, 0 < n → start + n - 1 = ra →
    ∃ e, write ra = Except.error e ∧
      retryGo write batch ra delay (List.range' start n) =
        ⟨List.replicate n batch, List.replicate (n - 1) delay,
         some (Except.error ⟨ra, e⟩)⟩ := by
  intro n
  induction n with
  | zero => intro start h1 h2; omega
  | succ m ih =>
    intro start h1 h2
    cases m with
    | zero =>
      have hsr : start = ra := by omega
      subst hsr
      cases hw : write start with
      | ok u => exact absurd hw (hfail start u)
      | error e =>
        refine ⟨e, rfl, ?_⟩
        simp [List.range', retryGo, hw]
    | succ k =>
      have hne : start ≠ ra := by omega
      obtain ⟨e, hwe, hrec⟩ := ih (start + 1) (by omega) (by omega)
      cases hw : write start with
      | ok u => exact absurd hw (hfail start u)
      | error e0 =>
        refine ⟨e, hwe, ?_⟩
        have hr : List.range' start (k + 1 + 1) = start :: List.range' (start + 1) (k + 1) := by
          simp [List.range']
        rw [hr]
        unfold retryGo
        rw [hw]
        simp only [if_neg hne, hrec, List.replicate_succ, Nat.succ_sub_one]

lemma retryGo_isSome (write : Nat → Except String Unit) (batch : List DataPoint)
    (delay ra : Nat) :
    ∀ n, ∀ start, 0 < n → start + n - 1 = ra →
    (retryGo write batch ra delay (List.range' start n)).result.isSome = true := by
  intro n
  induction n with
  | zero => intro start h1 h2; omega
  | succ m ih =>
    intro start h1 h2
    cases m with
    | zero =>
      have hsr : start = ra := by omega
      subst hsr
      cases hw : write start with
      | ok u => simp [List.range', retryGo, hw]
      | error e => simp [List.range', retryGo, hw]
    | succ k =>
      have hne : start ≠ ra := by omega
      have hr : List.range' start (k + 1 + 1) = start :: List.range' (start + 1) (k + 1) := by
        simp [List.range']
      rw [hr]
      unfold retryGo
      cases hw : write start with
      | ok u => rfl
      | error e =>
        simp only [if_neg hne]
        exact ih (start + 1) (by omega) (by omega)

lemma write_batch_isSome (write : Nat → Except String Unit) (batch : List DataPoint)
    (ra delay : Nat) (h : 1 ≤ ra) :
    (write_batch_with_retry write batch ra delay).result.isSome = true := by
  unfold write_batch_with_retry
  exact retryGo_isSome write batch delay ra ra 1 h (by omega)

/-- C2: every sink write attempt made by write_batch_with_retry — the first
and every retry — receives exactly the batch it was handed: the list of call
arguments is the batch repeated, so record order within the batch is
preserved across retries and no record is duplicated or dropped by the
dispatcher itself. -/
theorem c2_retries_preserve_batch (write : Nat → Except String Unit)
    (batch : List DataPoint) (ra delay : Nat) :
    (write_batch_with_retry write batch ra delay).calls =
      List.replicate (write_batch_with_retry write batch ra delay).calls.length batch := by
  unfold write_batch_with_retry
  exact retryGo_calls_replicate write batch ra delay (List.range' 1 ra)

/-- C10: with retry_attempts = 0 the dispatcher's `for` loop runs zero times,
no sink write call is made, and control reaches the trailing unreachable!()
(result = none, a panic); with retry_attempts >= 1 the function always
returns from inside the loop (result = some, Ok or Err), so the
unreachable!() is never reached. -/
theorem c10_unreachable_branch :
    (∀ write batch delay, write_batch_with_retry write batch 0 delay =
      ⟨[], [], none⟩) ∧
    (∀ write batch ra delay, 1 ≤ ra →
      (write_batch_with_retry write batch ra delay).result.isSome = true) := by
  constructor
  · intro write batch delay; rfl
  · intro write batch ra delay h
    exact write_batch_isSome write batch ra delay h

/-- Witness for C10 at retry_attempts 0 and 2. -/
theorem c10_witness :
    write_batch_with_retry sinkBoom batchTwo 0 5 = ⟨[], [], none⟩ ∧
    (write_batch_with_retry sinkBoom batchTwo 2 5).result.isSome = true :=
  ⟨c10_unreachable_branch.1 sinkBoom batchTwo 5,
   c10_unreachable_branch.2 sinkBoom batchTwo 2 5 (by decide)⟩

/-- C1, counterexample to the claim as stated: with a batch of two points, a
sink that always fails with "boom", and retry_attempts = 3, the dispatcher
returns the exhaustion error, but the value it carries names the attempt
count 3 — rendered into the message "Failed to write batch after 3 attempts:
boom" by main.rs:130 — and the last error; the batch size attempted (2)
appears nowhere in the failure value. -/
theorem c1_counterexample :
    (write_batch_with_retry sinkBoom batchTwo 3 100).result =
      some (Except.error ⟨3, "boom"⟩) ∧
    (DispatchError.mk 3 "boom").message =
      "Failed to write batch after 3 attempts: boom" ∧
    batchTwo.length = 2 ∧ (3 : Nat) ≠ 2 :=
  ⟨rfl, rfl, rfl, by decide⟩

/-- C1 as amended: for every batch and every retry attempt count N >= 1, if
every sink write attempt fails, write_batch_with_retry issues exactly N write
calls, sleeps the configured fixed delay between consecutive attempts (N - 1
sleeps), and returns — rather than panicking — a failure value naming the
attempt count N (not the batch size) and the last underlying error. -/
theorem c1_amended (write : Nat → Except String Unit) (batch : List DataPoint)
    (ra delay : Nat) (hra : 1 ≤ ra) (hfail : ∀ a u, write a ≠ Except.ok u) :
    ∃ e, write ra = Except.error e ∧
      write_batch_with_retry write batch ra delay =
        ⟨List.replicate ra batch, List.replicate (ra - 1) delay,
         some (Except.error ⟨ra, e⟩)⟩ := by
  unfold write_batch_with_retry
  exact retryGo_allFail write batch delay ra hfail ra 1 hra (by omega)

/-- Witness for C1 as amended: three attempts on a two-point batch against the
always-failing sink. -/
theorem c1_witness :
    ∃ e, sinkBoom 3 = Except.error e ∧
      write_batch_with_retry sinkBoom batchTwo 3 100 =
        ⟨List.replicate 3 batchTwo, List.replicate 2 100,
         some (Except.error ⟨3, e⟩)⟩ :=
  c1_amended sinkBoom batchTwo 3 100 (by decide) (fun a u => by simp [sinkBoom])

/-- A flow record whose receipt timestamp is 2^63 ns, a valid u64 value. -/
def flowWrap : FlowData :=
  { privFlow with time_received_ns := 2 ^ 63 }

/-- C8, counterexample to the claim as stated: flow_to_datapoint stamps the
point with `flow.time_received_ns as i64` (main.rs:141), so for the
well-formed record flowWrap with time_received_ns = 2^63 the cast wraps and
the produced timestamp is -2^63, not the record's receipt time. -/
theorem c8_counterexample :
    (flow_to_datapoint flowWrap).timestamp ≠ (flowWrap.time_received_ns : Int) ∧
    (flow_to_datapoint flowWrap).timestamp = -(2 ^ 63 : Int) :=
  ⟨by decide, by decide⟩

/-- C8 as amended: flow_to_datapoint is a deterministic total mapping
producing exactly one data point per record, and its timestamp is the
record's receipt time time_received_ns reinterpreted as a signed 64-bit
value — hence equal to time_received_ns whenever that value is below 2^63 —
and is never derived from the flow-start or flow-end time. -/
theorem c8_amended (flow : FlowData) (h : flow.time_received_ns < 2 ^ 63) :
    (flow_to_datapoint flow).timestamp = (flow.time_received_ns : Int) := by
  have hts : (flow_to_datapoint flow).timestamp = u64_as_i64 flow.time_received_ns := rfl
  rw [hts]
  unfold u64_as_i64
  rw [if_pos h]

/-- Witness for C8 as amended at the concrete record privFlow. -/
theorem c8_witness :
    privFlow.time_received_ns < 2 ^ 63 ∧
    (flow_to_datapoint privFlow).timestamp = (privFlow.time_received_ns : Int) :=
  ⟨by decide, c8_amended privFlow (by decide)⟩

/-- An environment with all required sink settings and BATCH_SIZE set to the
string "0". -/
def envZero : String → Option String := fun k =>
  if k = "INFLUXDB_URL" then some "http://localhost:8086"
  else if k = "INFLUXDB_TOKEN" then some "token"
  else if k = "INFLUXDB_ORG" then some "org"
  else if k = "INFLUXDB_BUCKET" then some "bucket"
  else if k = "BATCH_SIZE" then some "0"
  else none

/-- An environment with all required sink settings and BATCH_SIZE set to the
string "-5". -/
def envNeg : String → Option String := fun k =>
  if k = "INFLUXDB_URL" then some "http://localhost:8086"
  else if k = "INFLUXDB_TOKEN" then some "token"
  else if k = "INFLUXDB_ORG" then some "org"
  else if k = "INFLUXDB_BUCKET" then some "bucket"
  else if k = "BATCH_SIZE" then some "-5"
  else none

/-- C4, counterexample to the claim as stated: with BATCH_SIZE="0" (and all
required sink variables set) Config::from_env succeeds and yields a
configuration whose batch capacity is 0 — "0" parses as a valid usize — so a
zero capacity is not rejected at startup. -/
theorem c4_counterexample :
    (Config.fromEnv envZero).isSome = true ∧
    (Config.fromEnv envZero).map Config.batch_size = some 0 :=
  ⟨rfl, rfl⟩

lemma rustParseUInt_neg (bound : Nat) (rest : List Char) :
    rustParseUInt bound (String.mk ('-' :: rest)) = none := by
  unfold rustParseUInt
  simp

/-- C4 as amended: a BATCH_SIZE string denoting a negative number (one
starting with a minus sign) fails usize parsing, so Config::from_env returns
an error and the process exits before reading input; a BATCH_SIZE of "0",
however, parses successfully and from_env starts with capacity zero. -/
theorem c4_amended (env : String → Option String) (rest : List Char)
    (h : env "BATCH_SIZE" = some (String.mk ('-' :: rest))) :
    Config.fromEnv env = none := by
  unfold Config.fromEnv
  cases h1 : env "INFLUXDB_URL" with
  | none => rfl
  | some url =>
    cases h2 : env "INFLUXDB_TOKEN" with
    | none => rfl
    | some token =>
      cases h3 : env "INFLUXDB_ORG" with
      | none => rfl
      | some org =>
        cases h4 : env "INFLUXDB_BUCKET" with
        | none => rfl
        | some bucket =>
          simp [h, rustParseUInt_neg]

/-- Witness for C4 as amended at the concrete environment envNeg. -/
theorem c4_witness : Config.fromEnv envNeg = none :=
  c4_amended envNeg ['5'] (by rfl)

lemma octetVal_le_255 {cs : List Char} {n : Nat} (h : octetVal cs = some n) : n ≤ 255 := by
  unfold octetVal at h
  split at h
  · exact absurd h (by simp)
  · split at h
    · exact absurd h (by simp)
    · split at h
      · split at h
        · exact absurd h (by simp)
        · split at h
          · injection h with h'
            omega
          · exact absurd h (by simp)
      · exact absurd h (by simp)

lemma parseIpv4_bounds {s : String} {a b c d : Nat}
    (h : parseIpv4 s = some (a, b, c, d)) :
    a ≤ 255 ∧ b ≤ 255 ∧ c ≤ 255 ∧ d ≤ 255 := by
  unfold parseIpv4 at h
  split at h
  · split at h
    · rename_i ha hb hc hd
      injection h with h'
      injection h' with h1 h'
      injection h' with h2 h'
      injection h' with h3 h4
      subst h1; subst h2; subst h3; subst h4
      exact ⟨octetVal_le_255 ha, octetVal_le_255 hb, octetVal_le_255 hc, octetVal_le_255 hd⟩
    · exact absurd h (by simp)
  · exact absurd h (by simp)

lemma private_ranges_iff (a b c d : Nat) (ha : a ≤ 255) (hb : b ≤ 255)
    (hc : c ≤ 255) (hd : d ≤ 255) :
    private_ranges.any (fun range => range.contains (ipv4ToNat a b c d)) = true ↔
    (a = 10 ∨ (a = 172 ∧ 16 ≤ b ∧ b ≤ 31) ∨ (a = 192 ∧ b = 168)) := by
  simp only [private_ranges, List.any_cons, List.any_nil, Ipv4Net.contains, ipv4ToNat,
    Bool.or_eq_true, beq_iff_eq, Bool.or_false]
  norm_num
  omega

/-- C5: is_private_ip returns true exactly on strings that parse as an IPv4
address lying in 10.0.0.0/8, 172.16.0.0/12 or 192.168.0.0/16; in particular
"10.1.2.3" is accepted, "8.8.8.8" is excluded, and strings that are not IPv4
(an IPv6 address, the empty string) yield false rather than an error. -/
theorem c5_scope_filter :
    (∀ s : String, is_private_ip s = true ↔
      ∃ a b c d, parseIpv4 s = some (a, b, c, d) ∧
        (a = 10 ∨ (a = 172 ∧ 16 ≤ b ∧ b ≤ 31) ∨ (a = 192 ∧ b = 168))) ∧
    is_private_ip "10.1.2.3" = true ∧
    is_private_ip "8.8.8.8" = false ∧
    is_private_ip "::1" = false ∧
    is_private_ip "" = false := by
  refine ⟨?_, by decide, by decide, by decide, by decide⟩
  intro s
  unfold is_private_ip
  cases hp : parseIpv4 s with
  | none => simp
  | some q =>
    obtain ⟨a, b, c, d⟩ := q
    obtain ⟨ha, hb, hc, hd⟩ := parseIpv4_bounds hp
    rw [private_ranges_iff a b c d ha hb hc hd]
    constructor
    · intro h
      exact ⟨a, b, c, d, rfl, h⟩
    · rintro ⟨a1, b1, c1, d1, heq, h⟩
      injection heq with h'
      injection h' with h1 h'
      injection h' with h2 h'
      injection h' with h3 h4
      subst h1; subst h2; subst h3; subst h4
      exact h

lemma checksOk_append (es fs : List Event) :
    checksOk (es ++ fs) = (checksOk es && checksOk fs) := by
  simp [checksOk, List.all_append]

lemma checksOk_extend (es fs : List Event) (h1 : checksOk es = true)
    (h2 : checksOk fs = true) : checksOk (es ++ fs) = true := by
  rw [checksOk_append, h1, h2]
  rfl

lemma processLine_inv (cfg : Config) (parse : String → Option FlowData)
    (sink : Nat → Except String Unit) (st st' : LoopSt) (line : String)
    (hbs : 1 ≤ cfg.batch_size)
    (hlen : st.batch.length < cfg.batch_size)
    (hok : checksOk st.events = true)
    (h : processLine cfg parse sink st line = some st') :
    st'.batch.length < cfg.batch_size ∧ checksOk st'.events = true := by
  unfold processLine at h
  dsimp only at h
  split at h
  · injection h with h'
    subst h'
    exact ⟨hlen, hok⟩
  · split at h
    · injection h with h'
      subst h'
      exact ⟨hlen, checksOk_extend _ _ hok rfl⟩
    · rename_i flow heq
      split at h
      · injection h with h'
        subst h'
        exact ⟨hlen, hok⟩
      · have hle : (st.batch ++ [flow_to_datapoint flow]).length ≤ cfg.batch_size := by
          simp only [List.length_append, List.length_cons, List.length_nil]
          omega
        have hchk : checksOk [Event.flushCheck
            (st.batch ++ [flow_to_datapoint flow]).length cfg.batch_size] = true := by
          simp only [checksOk, List.all_cons, List.all_nil, Bool.and_true, checkEvent]
          exact decide_eq_true hle
        split at h
        · split at h
          · exact absurd h (by simp)
          · injection h with h'
            subst h'
            exact ⟨hbs, checksOk_extend _ _ (checksOk_extend _ _ hok hchk) rfl⟩
        · rename_i hnf
          injection h with h'
          subst h'
          refine ⟨?_, checksOk_extend _ _ hok hchk⟩
          simpa using Nat.lt_of_not_le hnf

lemma runLines_inv (cfg : Config) (parse : String → Option FlowData)
    (sink : Nat → Except String Unit) (hbs : 1 ≤ cfg.batch_size) :
    ∀ input st st', st.batch.length < cfg.batch_size → checksOk st.events = true →
    runLines cfg parse sink st input = some st' →
    st'.batch.length < cfg.batch_size ∧ checksOk st'.events = true := by
  intro input
  induction input with
  | nil =>
    intro st st' h1 h2 h
    injection h with h'
    subst h'
    exact ⟨h1, h2⟩
  | cons line rest ih =>
    intro st st' h1 h2 h
    unfold runLines at h
    cases hpl : processLine cfg parse sink st line with
    | none => rw [hpl] at h; cases h
    | some stm =>
      rw [hpl] at h
      obtain ⟨a, b⟩ := processLine_inv cfg parse sink st stm line hbs h1 h2 hpl
      exact ih stm st' a b h

lemma finishRun_checks (cfg : Config) (sink : Nat → Except String Unit)
    (st st' : LoopSt) (hok : checksOk st.events = true)
    (h : finishRun cfg sink st = some st') : checksOk st'.events = true := by
  unfold finishRun at h
  dsimp only at h
  split at h
  · injection h with h'
    subst h'
    exact hok
  · split at h
    · exact absurd h (by simp)
    · injection h with h'
      subst h'
      exact checksOk_extend _ _ hok rfl

/-- C3 as amended: provided the configured batch capacity is at least 1, at
every evaluation of the flush decision `batch.len() >= batch_size` the batch
length is at most the capacity (it may equal it exactly, right before the
flush fires); with capacity 0 — which Config::from_env accepts — the very
first evaluation already sees length 1 > 0. -/
theorem c3_amended (cfg : Config) (parse : String → Option FlowData)
    (sink : Nat → Except String Unit) (input : List String) (st : LoopSt)
    (hbs : 1 ≤ cfg.batch_size)
    (h : runPipeline cfg parse sink input = some st) :
    checksOk st.events = true := by
  unfold runPipeline at h
  cases hr : runLines cfg parse sink initState input with
  | none => rw [hr] at h; cases h
  | some stm =>
    rw [hr] at h
    have hinit1 : initState.batch.length < cfg.batch_size := by
      simpa [initState] using hbs
    have hinit2 : checksOk initState.events = true := rfl
    obtain ⟨_, hokm⟩ := runLines_inv cfg parse sink hbs input initState stm hinit1 hinit2 hr
    exact finishRun_checks cfg sink stm st hokm h

/-- The loop state after cfgFlush1 processes the single in-scope line "a":
the record was accepted, flushed (capacity 1), and the pacing sleep ran. -/
def stFlush1 : LoopSt :=
  { batch := []
    total_processed := 1
    filtered_out := 0
    linesRead := 1
    writeCalls := 1
    events := [Event.flushCheck 1 1,
               Event.flush ⟨[[flow_to_datapoint privFlow]], [], some (Except.ok ())⟩,
               Event.pace 10000] }

/-- Witness for C3 as amended: a run of cfgFlush1 on one in-scope line. -/
theorem c3_witness : 1 ≤ cfgFlush1.batch_size ∧ checksOk stFlush1.events = true :=
  ⟨by decide, c3_amended cfgFlush1 parsePriv sinkOk ["a"] stFlush1 (by decide) (by rfl)⟩

/-- C3, counterexample to the claim as stated: with batch capacity 0 — a
configuration Config::from_env accepts (see the C4 theorems) — the first
accepted record makes the flush decision see a batch of length 1, exceeding
the configured capacity 0. -/
theorem c3_counterexample :
    (runPipeline cfgCap0 parsePriv sinkOk ["a"]).map (fun st => checksOk st.events) =
      some false := rfl

lemma processLine_isSome (cfg : Config) (parse : String → Option FlowData)
    (sink : Nat → Except String Unit) (st : LoopSt) (line : String)
    (hra : 1 ≤ cfg.retry_attempts) :
    (processLine cfg parse sink st line).isSome = true := by
  unfold processLine
  dsimp only
  split
  · rfl
  · split
    · rfl
    · rename_i flow heq
      split
      · rfl
      · split
        · have hs := write_batch_isSome (fun a => sink (st.writeCalls + a - 1))
            (st.batch ++ [flow_to_datapoint flow]) cfg.retry_attempts cfg.retry_delay_ms hra
          split
          · rename_i htr
            rw [htr] at hs
            exact absurd hs (by simp)
          · rfl
        · rfl

lemma processLine_linesRead (cfg : Config) (parse : String → Option FlowData)
    (sink : Nat → Except String Unit) (st st' : LoopSt) (line : String)
    (h : processLine cfg parse sink st line = some st') :
    st'.linesRead = st.linesRead + 1 := by
  unfold processLine at h
  dsimp only at h
  split at h
  · injection h with h'; subst h'; rfl
  · split at h
    · injection h with h'; subst h'; rfl
    · split at h
      · injection h with h'; subst h'; rfl
      · split at h
        · split at h
          · cases h
          · injection h with h'; subst h'; rfl
        · injection h with h'; subst h'; rfl

lemma runLines_total (cfg : Config) (parse : String → Option FlowData)
    (sink : Nat → Except String Unit) (hra : 1 ≤ cfg.retry_attempts) :
    ∀ input st, ∃ st', runLines cfg parse sink st input = some st' ∧
      st'.linesRead = st.linesRead + input.length := by
  intro input
  induction input with
  | nil => intro st; exact ⟨st, rfl, rfl⟩
  | cons line rest ih =>
    intro st
    have h1 := processLine_isSome cfg parse sink st line hra
    obtain ⟨st1, heq1⟩ := Option.isSome_iff_exists.mp h1
    obtain ⟨st2, h2, hl2⟩ := ih st1
    refine ⟨st2, ?_, ?_⟩
    · unfold runLines
      rw [heq1]
      exact h2
    · have h3 := processLine_linesRead cfg parse sink st st1 line heq1
      simp only [List.length_cons]
      omega

lemma finishRun_total (cfg : Config) (sink : Nat → Except String Unit) (st : LoopSt)
    (hra : 1 ≤ cfg.retry_attempts) :
    ∃ st', finishRun cfg sink st = some st' ∧
      st'.linesRead = st.linesRead ∧
      summaryOf st' = summaryOf st ∧
      ((st.batch = [] ∧ st'.events = st.events) ∨
       (st.batch ≠ [] ∧ ∃ tr, st'.events = st.events ++ [Event.finalFlush tr])) := by
  unfold finishRun
  dsimp only
  by_cases hbe : st.batch.isEmpty = true
  · rw [if_pos hbe]
    exact ⟨st, rfl, rfl, rfl, Or.inl ⟨List.isEmpty_iff.mp hbe, rfl⟩⟩
  · rw [if_neg hbe]
    have hs := write_batch_isSome (fun a => sink (st.writeCalls + a - 1)) st.batch
      cfg.retry_attempts cfg.retry_delay_ms hra
    cases htr : (write_batch_with_retry (fun a => sink (st.writeCalls + a - 1)) st.batch
        cfg.retry_attempts cfg.retry_delay_ms).result with
    | none => rw [htr] at hs; exact absurd hs (by simp)
    | some r =>
      refine ⟨_, rfl, rfl, rfl, Or.inr ⟨fun hc => hbe (by simp [hc]), _, rfl⟩⟩

/-- C6, counterexample to the claim as stated: parse failures are not
counted.  A run over the single unparseable line "x" emits one parse-failure
warning yet reports exactly the same final summary, (0, 0), as a run over no
input at all; the summary (main.rs:255-258) reports only total parsed and
filtered-out counts, so it cannot include a parse-failure count. -/
theorem c6_counterexample :
    (runPipeline cfgDefault parseFail sinkOk ["x"]).map summaryOf = some (0, 0) ∧
    (runPipeline cfgDefault parseFail sinkOk []).map summaryOf = some (0, 0) ∧
    (runPipeline cfgDefault parseFail sinkOk ["x"]).map
      (fun st => parseFailures st.events) = some 1 ∧
    (runPipeline cfgDefault parseFail sinkOk []).map
      (fun st => parseFailures st.events) = some 0 :=
  ⟨rfl, rfl, rfl, rfl⟩

/-- C6 as amended: a line that fails to parse is only logged — the loop emits
the parse-failure warning and changes nothing else: batch, total_processed
and filtered_out (the only data in the final summary) are untouched, so the
final summary reports the accepted and filtered-out totals but no
parse-failure count. -/
theorem c6_amended (cfg : Config) (parse : String → Option FlowData)
    (sink : Nat → Except String Unit) (st : LoopSt) (line : String)
    (hnb : isBlank line.data = false) (hp : parse line = none) :
    processLine cfg parse sink st line =
      some { st with
             linesRead := st.linesRead + 1
             events := st.events ++ [Event.parseFailure line] } := by
  unfold processLine
  simp [hnb, hp]

/-- Witness for C6 as amended: the unparseable line "x" against the initial
state. -/
theorem c6_witness :
    processLine cfgDefault parseFail sinkOk initState "x" =
      some { initState with
             linesRead := initState.linesRead + 1
             events := initState.events ++ [Event.parseFailure "x"] } :=
  c6_amended cfgDefault parseFail sinkOk initState "x" (by decide) rfl

/-- C7 as amended: provided retry_attempts >= 1 (Config::from_env also
accepts RETRY_ATTEMPTS=0, under which the first flush panics through the
dispatcher's unreachable!()), no error met while processing records — parse
failures included, sink write failures included even after retry
exhaustion — terminates the ingestion loop: for every input sequence, every
parse behaviour and every sink behaviour, the loop consumes every line and
the process reaches its final summary. -/
theorem c7_amended (cfg : Config) (parse : String → Option FlowData)
    (sink : Nat → Except String Unit) (input : List String)
    (hra : 1 ≤ cfg.retry_attempts) :
    ∃ st, runPipeline cfg parse sink input = some st ∧
      st.linesRead = input.length := by
  obtain ⟨st1, h1, hl1⟩ := runLines_total cfg parse sink hra input initState
  obtain ⟨st2, h2, hl2, _, _⟩ := finishRun_total cfg sink st1 hra
  refine ⟨st2, ?_, ?_⟩
  · unfold runPipeline
    rw [h1]
    exact h2
  · rw [hl2, hl1]
    simp [initState]

/-- Witness for C7 as amended: a default-configured run over one unparseable
line, against an always-failing parse and a healthy sink. -/
theorem c7_witness :
    ∃ st, runPipeline cfgDefault parseFail sinkOk ["x"] = some st ∧
      st.linesRead = (["x"] : List String).length :=
  c7_amended cfgDefault parseFail sinkOk ["x"] (by decide)

/-- C7, counterexample to the claim as stated: with RETRY_ATTEMPTS=0 — a
configuration Config::from_env accepts — the first full batch reaches the
dispatcher's unreachable!() and the process aborts mid-loop (result none)
while processing a record, so a runtime failure that is neither a startup
configuration error nor an input-acquisition error is fatal. -/
theorem c7_counterexample :
    runPipeline cfgRetry0 parsePriv sinkOk ["a"] = none := rfl

/-- C9 as amended: provided retry_attempts >= 1, when the loop ends with a
non-empty partial batch the pipeline dispatches it through
write_batch_with_retry exactly once — exactly one finalFlush trace is
appended, as the last event, so no pacing sleep follows it — before the
process reports its final summary (which the final flush leaves unchanged);
when the batch is empty at end-of-stream no final flush happens.  With
retry_attempts = 0 the final flush of a non-empty batch panics instead. -/
theorem c9_amended (cfg : Config) (parse : String → Option FlowData)
    (sink : Nat → Except String Unit) (input : List String) (st : LoopSt)
    (hra : 1 ≤ cfg.retry_attempts)
    (hloop : runLines cfg parse sink initState input = some st) :
    ∃ st', runPipeline cfg parse sink input = some st' ∧
      summaryOf st' = summaryOf st ∧
      ((st.batch = [] ∧ st'.events = st.events) ∨
       (st.batch ≠ [] ∧ ∃ tr, st'.events = st.events ++ [Event.finalFlush tr])) := by
  obtain ⟨st', h2, _, hsum, hcase⟩ := finishRun_total cfg sink st hra
  refine ⟨st', ?_, hsum, hcase⟩
  unfold runPipeline
  rw [hloop]
  exact h2

/-- The loop state after cfgCap2 processes the single in-scope line "a": one
accepted record sits in the still-unflushed partial batch. -/
def stPart : LoopSt :=
  { batch := [flow_to_datapoint privFlow]
    total_processed := 1
    filtered_out := 0
    linesRead := 1
    writeCalls := 0
    events := [Event.flushCheck 1 2] }

/-- Witness for C9 as amended: capacity 2, one in-scope line, so the loop
ends with a non-empty partial batch. -/
theorem c9_witness :
    ∃ st', runPipeline cfgCap2 parsePriv sinkOk ["a"] = some st' ∧
      summaryOf st' = summaryOf stPart ∧
      ((stPart.batch = [] ∧ st'.events = stPart.events) ∨
       (stPart.batch ≠ [] ∧ ∃ tr, st'.events = stPart.events ++ [Event.finalFlush tr])) :=
  c9_amended cfgCap2 parsePriv sinkOk ["a"] stPart (by decide) (by rfl)

/-- C9, counterexample to the claim as stated: with RETRY_ATTEMPTS=0 — a
configuration Config::from_env accepts — the loop ends with a non-empty
partial batch, but the end-of-stream flush panics through the dispatcher's
unreachable!() and the process never reports its final summary. -/
theorem c9_counterexample :
    (runLines cfgRetry0Cap2 parsePriv sinkOk initState ["a"]).map
      (fun st => st.batch.isEmpty) = some false ∧
    runPipeline cfgRetry0Cap2 parsePriv sinkOk ["a"] = none :=
  ⟨rfl, rfl⟩
